import Mathlib

/-!
Verification of the sashimi external-communication core.

A shallow embedding of two components of the repository:

* `ExternalComm` (src/sashimi/processes/external_communication.py): the
  coordinator process whose `trigger_condition` gates firing a hardware
  trigger and whose `run` loop drains a settings queue, confirms the
  acquisition start, calls the external link and routes the duration result.
* `StytraComm.trigger_and_receive_duration`
  (src/sashimi/hardware/external_trigger/stytra.py): the zmq request/reply
  exchange with bounded waiting and tolerant result parsing.

Python floats are embedded as the inductive `PyFloat` (a rational, or one
of the three non-finite values); decoded JSON documents as `Json`; the
behaviour of the peer during one zmq exchange as `Reply` (silent within the
1000 ms window, a reply whose JSON decoding fails, or a decoded document).
Exceptions are embedded with `Except`: a `.error` outcome of a cycle or of
the link call is an exception propagating out of the embedded code.
-/

namespace Sashimi

/-- A Python float: a finite value (embedded as a rational) or one of the
three non-finite values `nan`, `inf`, `-inf`. -/
inductive PyFloat where
  | finite (q : ℚ)
  | nan
  | inf
  | ninf
deriving DecidableEq

/-- Embeds `math.isfinite`: true exactly on finite floats. -/
def PyFloat.isFinite : PyFloat → Bool
  | .finite _ => true
  | _ => false

/-- A decoded JSON document, as Python's `json` module produces it
(`recv_json`); numbers carry a `PyFloat` since Python's decoder also accepts
`NaN`, `Infinity` and `-Infinity` tokens. -/
inductive Json where
  | null
  | bool (b : Bool)
  | num (x : PyFloat)
  | str (s : String)
  | arr (xs : List Json)
  | obj (kvs : List (String × Json))

/-- Value of a list of decimal digit characters. -/
def digitsVal (cs : List Char) : ℕ :=
  cs.foldl (fun a c => a * 10 + (c.toNat - 48)) 0

/-- Decimal-literal part of Python's float-from-string parsing:
digits with an optional single point, at least one digit present
(exponents and underscores are outside the behaviours exercised here). -/
def parseDecimal (cs : List Char) : Option ℚ :=
  let intPart := cs.takeWhile Char.isDigit
  let rest := cs.dropWhile Char.isDigit
  match rest with
  | [] => if intPart.isEmpty then none else some (digitsVal intPart : ℚ)
  | '.' :: frac =>
    if frac.all Char.isDigit && !(intPart.isEmpty && frac.isEmpty) then
      some ((digitsVal intPart : ℚ) + (digitsVal frac : ℚ) / (10 ^ frac.length))
    else none
  | _ => none

/-- Modelled from the Python builtin `float(s)` on a string (external to the
repository): strip surrounding blanks, an optional sign, then `nan`,
`inf`/`infinity`, or a decimal literal; `none` embeds the `ValueError` the
builtin raises on anything else. -/
def strToFloat (s : String) : Option PyFloat :=
  let t := s.trim.toLower
  let neg := t.startsWith "-"
  let body := if neg || t.startsWith "+" then t.drop 1 else t
  if body = "nan" then some .nan
  else if body = "inf" || body = "infinity" then
    some (if neg then .ninf else .inf)
  else
    match parseDecimal body.toList with
    | some q => some (.finite (if neg then -q else q))
    | none => none

/-- Modelled from the Python builtin `float(x)` on a decoded JSON value
(external to the repository): numbers pass through, booleans coerce to 0/1,
strings are parsed, and `None`, lists and dicts raise `TypeError`,
embedded as `none`. -/
def pyFloatOfJson : Json → Option PyFloat
  | .num x => some x
  | .bool b => some (.finite (if b then 1 else 0))
  | .str s => strToFloat s
  | _ => none

/-! Embedding of `StytraComm.trigger_and_receive_duration`. -/

/-- The request payload `dict(lightsheet=clean_json(settings))` built by the
coordinator and serialized over the wire. -/
structure Config where
  lightsheet : Json

/-- Behaviour of the peer during one zmq exchange: no reply within the
1000 ms poll window; a reply whose JSON decoding fails (`recv_json` raises);
or a decoded JSON document. -/
inductive Reply where
  | silent
  | malformed
  | json (j : Json)

/-- The exception `recv_json` raises on a reply that is not valid JSON. -/
inductive CommError where
  | decodeError
deriving DecidableEq

/-- Outcome of one call to `trigger_and_receive_duration`: the returned
value (or the propagated exception), and whether the socket (the `with`
block) and the owning zmq context (`zmq_context.destroy()`) were torn
down on that path. -/
structure CommResult where
  result : Except CommError (Option PyFloat)
  socketClosed : Bool
  contextDestroyed : Bool

/-- The candidate the reply interpretation step selects: a dict containing
a `"duration"` key yields that entry, anything else yields the whole
reply (`if isinstance(reply, dict) and "duration" in reply`). -/
def extractCandidate (j : Json) : Json :=
  match j with
  | .obj kvs =>
    match kvs.lookup "duration" with
    | some v => v
    | none => .obj kvs
  | _ => j

/-- Embeds `StytraComm.trigger_and_receive_duration(config)`: open a fresh REQ
socket inside a `with` block, send the config, poll 1000 ms; on a reply,
extract the candidate, coerce it to float inside `try/except`, and reject
non-finite values. The `with` block closes the socket on every path;
`zmq_context.destroy()` runs after the `with` block, so a propagating
exception (a JSON decode failure in `recv_json`) skips it. -/
def trigger_and_receive_duration (_config : Config) (reply : Reply) : CommResult :=
  match reply with
  | .silent =>
    { result := .ok none, socketClosed := true, contextDestroyed := true }
  | .malformed =>
    { result := .error .decodeError, socketClosed := true, contextDestroyed := false }
  | .json r =>
    let duration := extractCandidate r
    let duration_val := pyFloatOfJson duration
    let final : Option PyFloat :=
      match duration_val with
      | none => none
      | some x => if x.isFinite then some x else none
    { result := .ok final, socketClosed := true, contextDestroyed := true }

/-! Embedding of `ExternalComm`: trigger_condition and the run loop. -/

/-- The cross-process boolean signals the coordinator reads in one loop
iteration: `stop_event`, `start_comm` (experimentStart),
`saving_event` (isSaving), `is_triggered_event` (hardwareTriggered) and
`waiting_event` (isWaiting). -/
structure Signals where
  stop : Bool
  experimentStart : Bool
  isSaving : Bool
  hardwareTriggered : Bool
  isWaiting : Bool
deriving DecidableEq

/-- Embeds `ExternalComm.trigger_condition`: when `scanning_trigger` is enabled it
returns the conjunction of the four signal reads; when disabled the Python
method falls off the end and returns `None`, embedded as `none`
(the logging on change does not affect the returned value). -/
def trigger_condition (scanning_trigger : Bool) (s : Signals) : Option Bool :=
  if scanning_trigger then
    some (s.experimentStart && s.isSaving && s.hardwareTriggered && !s.isWaiting)
  else
    none

/-- Python truthiness of the value `trigger_condition` returns:
`None` and `False` are falsy, `True` is truthy (`if self.trigger_condition():`). -/
def pyTruthy : Option Bool → Bool
  | none => false
  | some b => b

/-- The settings drain at the top of each iteration: pop the queue with a
negligible timeout until `Empty`, rebuilding
`current_config = dict(lightsheet=clean_json(item))` after every pop, so
only the last popped entry survives; an empty queue leaves the previous
config (if any) in place. `clean` embeds `sashimi.utilities.clean_json`,
an external sanitizer passed in as a parameter. -/
def drainSettings (clean : Json → Json) (queue : List Json)
    (cfg : Option Config) : Option Config :=
  queue.foldl (fun _ item => some ⟨clean item⟩) cfg

/-- The start confirmation: `self.start_comm.event.wait(timeout=1.0)` inside
`try/except`; if the wait primitive itself raises, fall back to a single
non-blocking `self.start_comm.is_set()` read. -/
def confirmStarted (waitResult : Except Unit Bool) (s : Signals) : Bool :=
  match waitResult with
  | .ok b => b
  | .error _ => s.experimentStart

/-- An exception propagating out of one iteration of `run` (nothing in the
loop catches either): referencing `current_config` before any settings
entry ever arrived (`UnboundLocalError`), or an exception raised by
`self.comm.trigger_and_receive_duration`. -/
inductive CycleError where
  | nameError
  | linkError (e : CommError)
deriving DecidableEq

/-- Externally observable outcome of one completed loop iteration. -/
structure CycleOutcome where
  config : Option Config
  pushed : List PyFloat
  clearCount : ℕ
  signals : Signals
  linkCalled : Bool

/-- One iteration of the body of `ExternalComm.run` (after the `stop_event`
poll): drain the settings queue, evaluate `trigger_condition` under Python
truthiness, and if it fires, confirm the start, reference `current_config`
(raising if it was never built), call the link (`linkResult` is what that
call does this cycle), push a non-`None` duration onto `duration_queue`,
and clear `start_comm`. -/
def runCycle (clean : Json → Json) (scanning_trigger : Bool)
    (queue : List Json) (cfg0 : Option Config) (s : Signals)
    (waitResult : Except Unit Bool)
    (linkResult : Except CommError (Option PyFloat)) :
    Except CycleError CycleOutcome :=
  let cfg := drainSettings clean queue cfg0
  if pyTruthy (trigger_condition scanning_trigger s) then
    if confirmStarted waitResult s then
      match cfg with
      | none => .error .nameError
      | some c =>
        match linkResult with
        | .error e => .error (.linkError e)
        | .ok dur =>
          .ok { config := some c
                pushed := match dur with | some v => [v] | none => []
                clearCount := 1
                signals := { s with experimentStart := false }
                linkCalled := true }
    else
      .ok { config := cfg, pushed := [], clearCount := 0
            signals := s, linkCalled := false }
  else
    .ok { config := cfg, pushed := [], clearCount := 0
          signals := s, linkCalled := false }

/-- The per-iteration environment the collaborators supply: the settings
entries queued since the last drain, the signal states the iteration reads,
the behaviour of the start-confirmation wait, and the behaviour of the
link call, should one be made. -/
structure CycleEnv where
  queue : List Json
  signals : Signals
  waitResult : Except Unit Bool
  linkResult : Except CommError (Option PyFloat)

/-- Embeds `ExternalComm.run` over a finite trace of iteration environments:
`while not self.stop_event.is_set():` then the cycle body, with
`current_config` carried across iterations. `.ok true` means the loop
exited through the stop signal; `.ok false` means the trace ran out with
the loop still running; `.error` means an exception escaped the loop. -/
def runLoop (clean : Json → Json) (scanning_trigger : Bool) :
    Option Config → List CycleEnv → Except CycleError Bool
  | _, [] => .ok false
  | cfg, env :: rest =>
    if env.signals.stop then .ok true
    else
      match runCycle clean scanning_trigger env.queue cfg env.signals
          env.waitResult env.linkResult with
      | .error e => .error e
      | .ok out => runLoop clean scanning_trigger out.config rest

/-- Embeds `Except.isOk` for the link's result type: true on a normal
return, false on a propagating exception. -/
def exceptIsOk : Except CommError (Option PyFloat) → Bool
  | .ok _ => true
  | .error _ => false

/-! Concrete inputs used by counterexamples and witnesses. -/

/-- Signal snapshot in the firing combination: stop clear, experimentStart,
isSaving and hardwareTriggered set, isWaiting clear. -/
def sigAllOn : Signals :=
  { stop := false, experimentStart := true, isSaving := true
    hardwareTriggered := true, isWaiting := false }

/-- Iteration environment of an undefined-configuration fire: stop clear,
firing signal combination, start confirmation succeeds, yet no settings
entry was ever queued. -/
def envFire : CycleEnv :=
  { queue := [], signals := sigAllOn, waitResult := .ok true
    linkResult := .ok none }

/-- The outcome of a fired cycle whose link call returned the finite
duration 2. -/
def firedOutcome : CycleOutcome :=
  { config := some ⟨Json.null⟩, pushed := [PyFloat.finite 2], clearCount := 1
    signals := { sigAllOn with experimentStart := false }, linkCalled := true }

/-! Helper lemmas. -/

/-- The decoded-reply branch of the link call, written as one equation. -/
theorem result_json_eq (cfg : Config) (j : Json) :
    (trigger_and_receive_duration cfg (.json j)).result =
      .ok (match pyFloatOfJson (extractCandidate j) with
           | none => none
           | some x => if x.isFinite then some x else none) := rfl

/-- Draining a queue on top of an already-built config always leaves some
config built. -/
theorem drainSettings_some (clean : Json → Json) (queue : List Json) (c0 : Config) :
    ∃ c, drainSettings clean queue (some c0) = some c := by
  induction queue generalizing c0 with
  | nil => exact ⟨c0, rfl⟩
  | cons a rest ih => simpa [drainSettings] using ih ⟨clean a⟩

/-- A cycle that starts with a built config and whose link call returns
normally completes normally, and leaves a config built. -/
theorem runCycle_no_throw (clean : Json → Json) (st : Bool) (queue : List Json)
    (c0 : Config) (s : Signals) (w : Except Unit Bool) (r : Option PyFloat) :
    ∃ out c, runCycle clean st queue (some c0) s w (.ok r) = .ok out
      ∧ out.config = some c := by
  obtain ⟨c, hc⟩ := drainSettings_some clean queue c0
  by_cases hcond : pyTruthy (trigger_condition st s) = true
  · by_cases hst : confirmStarted w s = true
    · refine ⟨{ config := some c
                pushed := match r with | some v => [v] | none => []
                clearCount := 1, signals := { s with experimentStart := false }
                linkCalled := true }, c, ?_, rfl⟩
      simp [runCycle, hc, hcond, hst]
    · refine ⟨{ config := some c, pushed := [], clearCount := 0
                signals := s, linkCalled := false }, c, ?_, rfl⟩
      simp [runCycle, hc, hcond, hst]
  · refine ⟨{ config := some c, pushed := [], clearCount := 0
              signals := s, linkCalled := false }, c, ?_, rfl⟩
    simp [runCycle, hc, hcond]

/-- A completed cycle pushes nothing, or pushes exactly the one value the
link call returned. -/
theorem runCycle_pushed_cases (clean : Json → Json) (st : Bool)
    (queue : List Json) (cfg0 : Option Config) (s : Signals)
    (w : Except Unit Bool) (lr : Except CommError (Option PyFloat))
    (out : CycleOutcome)
    (h : runCycle clean st queue cfg0 s w lr = .ok out) :
    out.pushed = [] ∨ ∃ v, lr = .ok (some v) ∧ out.pushed = [v] := by
  simp only [runCycle] at h
  by_cases hcond : pyTruthy (trigger_condition st s) = true
  · rw [if_pos hcond] at h
    by_cases hst : confirmStarted w s = true
    · rw [if_pos hst] at h
      cases hc : drainSettings clean queue cfg0 with
      | none => rw [hc] at h; cases h
      | some c =>
        rw [hc] at h
        cases lr with
        | error e => cases h
        | ok dur =>
          cases dur with
          | none =>
            left
            simp only [Except.ok.injEq] at h
            rw [← h]
          | some v =>
            right
            refine ⟨v, rfl, ?_⟩
            simp only [Except.ok.injEq] at h
            rw [← h]
    · rw [if_neg hst] at h
      left
      simp only [Except.ok.injEq] at h
      rw [← h]
  · rw [if_neg hcond] at h
    left
    simp only [Except.ok.injEq] at h
    rw [← h]

/-- Every normal `some` return of the link call carries a finite float. -/
theorem link_some_isFinite (cfg : Config) (reply : Reply) (v : PyFloat)
    (h : (trigger_and_receive_duration cfg reply).result = .ok (some v)) :
    v.isFinite = true := by
  cases reply with
  | silent => cases h
  | malformed => cases h
  | json j =>
    rw [result_json_eq] at h
    simp only [Except.ok.injEq] at h
    cases hv : pyFloatOfJson (extractCandidate j) with
    | none => rw [hv] at h; cases h
    | some x =>
      rw [hv] at h
      cases x with
      | finite q =>
        simp only [PyFloat.isFinite, if_true, Option.some.injEq] at h
        subst h
        rfl
      | nan => simp [PyFloat.isFinite] at h
      | inf => simp [PyFloat.isFinite] at h
      | ninf => simp [PyFloat.isFinite] at h

/-! Claim theorems. -/

/-- C1 counterexample: with hardware-scanning-trigger mode disabled and all
four signals in the firing combination, `trigger_condition` returns the
Python `None` (the method falls off its end), not `False`; the claim that it
returns false for that combination is false of the code. -/
theorem trigger_condition_disabled_is_none :
    trigger_condition false sigAllOn = none
    ∧ (trigger_condition false sigAllOn = some false) = False := by
  refine ⟨rfl, ?_⟩
  simp [trigger_condition]

/-- C1 (amended): when hardware-scanning-trigger mode is enabled,
`trigger_condition` returns true iff experimentStart, isSaving and
hardwareTriggered are all set and isWaiting is clear; when the mode is
disabled it returns `None` rather than an explicit false, a value the run
loop's truthiness test treats as false, so no combination of signal states
fires a trigger then. -/
theorem trigger_condition_characterization (st : Bool) (s : Signals) :
    (trigger_condition st s = some true ↔
      st = true ∧ s.experimentStart = true ∧ s.isSaving = true
        ∧ s.hardwareTriggered = true ∧ s.isWaiting = false)
    ∧ trigger_condition false s = none
    ∧ pyTruthy (trigger_condition st s) =
        (st && s.experimentStart && s.isSaving
          && s.hardwareTriggered && !s.isWaiting) := by
  obtain ⟨p, a, b, c, d⟩ := s
  cases st <;> cases p <;> cases a <;> cases b <;> cases c <;> cases d <;> decide

/-- C4: a reply that is the object with a `"duration"` key holding the
finite value v yields v, and a reply that is the bare finite scalar v
also yields v. -/
theorem reply_duration_field_and_bare (q : ℚ) (cfg : Config) :
    (trigger_and_receive_duration cfg
        (.json (.obj [("duration", .num (.finite q))]))).result
      = .ok (some (.finite q))
    ∧ (trigger_and_receive_duration cfg (.json (.num (.finite q)))).result
      = .ok (some (.finite q)) := by
  constructor <;> rfl

/-- C7: one drain step over a settings queue holding the entries A, B, C in
that order pops all of them and builds the request from C alone; the built
request is the same whatever A, B and the previously built request were. -/
theorem drain_latest_wins (clean : Json → Json) (A B C : Json)
    (cfg0 : Option Config) :
    drainSettings clean [A, B, C] cfg0 = some ⟨clean C⟩ := rfl

/-- C10: a reply that is a JSON object without a `"duration"` key becomes
the coercion candidate whole, the float coercion of a dict fails (the
raised `TypeError` is caught), and the call returns the absent result
without raising. -/
theorem obj_without_duration_absent (cfg : Config) (kvs : List (String × Json))
    (h : kvs.lookup "duration" = none) :
    extractCandidate (.obj kvs) = .obj kvs
    ∧ pyFloatOfJson (.obj kvs) = none
    ∧ (trigger_and_receive_duration cfg (.json (.obj kvs))).result = .ok none := by
  have hcand : extractCandidate (.obj kvs) = .obj kvs := by
    simp [extractCandidate, h]
  refine ⟨hcand, rfl, ?_⟩
  rw [result_json_eq, hcand]
  rfl

/-- C10 witness: the object `{"x": null}` at a concrete call. -/
theorem obj_without_duration_absent_witness :
    extractCandidate (.obj [("x", Json.null)]) = .obj [("x", Json.null)]
    ∧ pyFloatOfJson (.obj [("x", Json.null)]) = none
    ∧ (trigger_and_receive_duration ⟨Json.null⟩
        (.json (.obj [("x", Json.null)]))).result = .ok none :=
  obj_without_duration_absent ⟨Json.null⟩ [("x", Json.null)] rfl

/-- C3 counterexample: a reply whose JSON decoding fails makes `recv_json`
raise, and nothing in the call catches it (the `try/except` wraps only the
float coercion), so the exception propagates instead of the absent result;
the claim that a malformed reply returns the absent result and never raises
is false of the code. -/
theorem malformed_reply_raises :
    (trigger_and_receive_duration ⟨Json.null⟩ .malformed).result
      = .error .decodeError
    ∧ ((trigger_and_receive_duration ⟨Json.null⟩ .malformed).result
        = .ok none) = False := by
  refine ⟨rfl, ?_⟩
  simp [trigger_and_receive_duration]

/-- C3 (amended): for every reply that decodes to a JSON document whose
extracted candidate is NaN, infinite or non-numeric (the coercion yields no
finite float), and for an absent reply (no message within the 1000 ms
window), the call returns the absent result without raising; only a reply
whose JSON decoding itself fails raises out of the call. -/
theorem nonfinite_or_nonnumeric_reply_absent (cfg : Config) (j : Json)
    (h : ∀ q : ℚ, pyFloatOfJson (extractCandidate j) ≠ some (.finite q)) :
    (trigger_and_receive_duration cfg (.json j)).result = .ok none
    ∧ (trigger_and_receive_duration cfg .silent).result = .ok none := by
  refine ⟨?_, rfl⟩
  rw [result_json_eq]
  cases hv : pyFloatOfJson (extractCandidate j) with
  | none => rfl
  | some x =>
    cases x with
    | finite q => exact absurd hv (h q)
    | nan => rfl
    | inf => rfl
    | ninf => rfl

/-- C3 witness: a bare NaN reply at a concrete call. -/
theorem nonfinite_reply_absent_witness :
    (trigger_and_receive_duration ⟨Json.null⟩ (.json (.num .nan))).result
      = .ok none
    ∧ (trigger_and_receive_duration ⟨Json.null⟩ .silent).result = .ok none :=
  nonfinite_or_nonnumeric_reply_absent ⟨Json.null⟩ (.num .nan)
    (fun q hq => by simp [pyFloatOfJson, extractCandidate] at hq)

/-- C8 counterexample: on the path where `recv_json` raises, the `with`
block closes the socket but `zmq_context.destroy()` sits after the `with`
block rather than in a `finally`, so the owning context is not torn down;
the claim that the connection and its owning context are torn down on every
exit path including exceptions is false of the code. -/
theorem context_not_destroyed_on_decode_error :
    (trigger_and_receive_duration ⟨Json.null⟩ .malformed).result
      = .error .decodeError
    ∧ (trigger_and_receive_duration ⟨Json.null⟩ .malformed).socketClosed = true
    ∧ (trigger_and_receive_duration ⟨Json.null⟩ .malformed).contextDestroyed
      = false :=
  ⟨rfl, rfl, rfl⟩

/-- C8 (amended): the socket connection is closed on every exit path of the
call, exceptions included; the owning zmq context, however, is destroyed
exactly on the paths where the call returns normally, and leaks on a path
where an exception propagates. -/
theorem teardown_paths (cfg : Config) (reply : Reply) :
    (trigger_and_receive_duration cfg reply).socketClosed = true
    ∧ (trigger_and_receive_duration cfg reply).contextDestroyed
      = exceptIsOk (trigger_and_receive_duration cfg reply).result := by
  cases reply <;> exact ⟨rfl, rfl⟩

/-- C5: in a cycle where the gating condition was true, the start
confirmation reported started, a request had been built, and the external
call returned (a value or the absent result alike), `start_comm` is cleared
exactly once and nothing else of the signals changes. -/
theorem clear_once_per_fired_cycle (clean : Json → Json) (st : Bool)
    (queue : List Json) (cfg0 : Option Config) (s : Signals)
    (w : Except Unit Bool) (c : Config) (r : Option PyFloat)
    (hcond : pyTruthy (trigger_condition st s) = true)
    (hstart : confirmStarted w s = true)
    (hcfg : drainSettings clean queue cfg0 = some c) :
    runCycle clean st queue cfg0 s w (.ok r) =
      .ok { config := some c
            pushed := match r with | some v => [v] | none => []
            clearCount := 1
            signals := { s with experimentStart := false }
            linkCalled := true } := by
  simp [runCycle, hcond, hstart, hcfg]

/-- C5 witness: a fired, confirmed cycle whose call returned the absent
result, at concrete inputs. -/
theorem clear_once_witness :
    runCycle id true [Json.null] none sigAllOn (.ok true) (.ok none) =
      .ok { config := some ⟨Json.null⟩, pushed := [], clearCount := 1
            signals := { sigAllOn with experimentStart := false }
            linkCalled := true } :=
  clear_once_per_fired_cycle id true [Json.null] none sigAllOn (.ok true)
    ⟨Json.null⟩ none rfl rfl rfl

/-- C6: in a cycle where the gating condition was true but neither the
bounded wait nor, on its failure, the fallback `is_set` read confirmed the
start, the cycle is skipped whole: the link is not called, nothing is
pushed onto the duration queue, no signal is cleared or set, and the
request drained at the top of the iteration is retained for the next one. -/
theorem skip_cycle_no_effects (clean : Json → Json) (st : Bool)
    (queue : List Json) (cfg0 : Option Config) (s : Signals)
    (w : Except Unit Bool) (lr : Except CommError (Option PyFloat))
    (hcond : pyTruthy (trigger_condition st s) = true)
    (hskip : confirmStarted w s = false) :
    runCycle clean st queue cfg0 s w lr =
      .ok { config := drainSettings clean queue cfg0, pushed := []
            clearCount := 0, signals := s, linkCalled := false } := by
  simp [runCycle, hcond, hskip]

/-- C6 witness: a concrete skipped cycle (condition true, wait returned
false). -/
theorem skip_cycle_witness :
    runCycle id true [] none sigAllOn (.ok false) (.ok none) =
      .ok { config := none, pushed := [], clearCount := 0
            signals := sigAllOn, linkCalled := false } :=
  skip_cycle_no_effects id true [] none sigAllOn (.ok false) (.ok none) rfl rfl

/-- C2 counterexample: with the stop signal clear, the gating condition
true and the start confirmed before any settings entry was ever received,
referencing the never-built `current_config` raises an uncaught
`UnboundLocalError` and the loop terminates without the stop signal; the
claim that the loop never terminates on any in-cycle event is false of the
code. -/
theorem loop_dies_on_unbuilt_config :
    envFire.signals.stop = false
    ∧ runLoop id true none [envFire] = .error .nameError :=
  ⟨rfl, rfl⟩

/-- C2 (amended): provided a request was built before the loop began and
every external-link call in the trace returns rather than raises, no event
inside a cycle terminates the loop: it runs the whole trace or exits
through the stop signal; a gating fire before any settings entry was ever
received, or an exception out of the link, does terminate it. -/
theorem loop_survives_cycles (clean : Json → Json) (st : Bool) (c0 : Config)
    (envs : List CycleEnv)
    (hlink : ∀ env ∈ envs, ∃ r, env.linkResult = .ok r) :
    ∃ b, runLoop clean st (some c0) envs = .ok b := by
  revert hlink
  induction envs generalizing c0 with
  | nil => exact fun _ => ⟨false, rfl⟩
  | cons env rest ih =>
    intro hlink
    by_cases hstop : env.signals.stop = true
    · exact ⟨true, by simp [runLoop, hstop]⟩
    · obtain ⟨r, hr⟩ := hlink env (List.mem_cons_self env rest)
      obtain ⟨out, c, hout, hc⟩ :=
        runCycle_no_throw clean st env.queue c0 env.signals env.waitResult r
      obtain ⟨b, hb⟩ := ih c (fun e he => hlink e (List.mem_cons_of_mem env he))
      refine ⟨b, ?_⟩
      simp only [runLoop]
      rw [if_neg hstop]
      simp only [hr, hout]
      rw [hc]
      exact hb

/-- C2 witness: a one-cycle trace with a pre-built request, at concrete
inputs. -/
theorem loop_survives_witness :
    ∃ b, runLoop id true (some ⟨Json.null⟩) [envFire] = .ok b :=
  loop_survives_cycles id true ⟨Json.null⟩ [envFire]
    (by
      intro env henv
      rw [List.mem_singleton] at henv
      subst henv
      exact ⟨none, rfl⟩)

/-- C9: whatever the peer does in one zmq exchange, a cycle whose link call
is that exchange pushes only finite floats onto the duration queue, and a
cycle whose exchange returned the absent result pushes nothing. -/
theorem pushed_durations_finite (clean : Json → Json) (st : Bool)
    (queue : List Json) (cfg0 : Option Config) (s : Signals)
    (w : Except Unit Bool) (cfg : Config) (reply : Reply) (out : CycleOutcome)
    (hrun : runCycle clean st queue cfg0 s w
        (trigger_and_receive_duration cfg reply).result = .ok out) :
    (∀ v ∈ out.pushed, v.isFinite = true)
    ∧ ((trigger_and_receive_duration cfg reply).result = .ok none
        → out.pushed = []) := by
  have hcases := runCycle_pushed_cases clean st queue cfg0 s w
    (trigger_and_receive_duration cfg reply).result out hrun
  constructor
  · intro v hv
    cases hcases with
    | inl h => rw [h] at hv; cases hv
    | inr h =>
      obtain ⟨u, hu, hp⟩ := h
      rw [hp] at hv
      rw [List.mem_singleton] at hv
      subst hv
      exact link_some_isFinite cfg reply v hu
  · intro habsent
    cases hcases with
    | inl h => exact h
    | inr h =>
      obtain ⟨u, hu, _⟩ := h
      rw [habsent] at hu
      cases hu

/-- C9 witness: a fired cycle whose exchange returned the finite duration
2, at concrete inputs. -/
theorem pushed_durations_finite_witness :
    (∀ v ∈ firedOutcome.pushed, v.isFinite = true)
    ∧ ((trigger_and_receive_duration ⟨Json.null⟩
          (.json (.num (.finite 2)))).result = .ok none
        → firedOutcome.pushed = []) :=
  pushed_durations_finite id true [Json.null] none sigAllOn (.ok true)
    ⟨Json.null⟩ (.json (.num (.finite 2))) firedOutcome rfl

end Sashimi
